import Mathlib

/-!
Verification of the call-scheduling and call-reconciliation core of the
Calico care-coordination dashboard.

The definitions below are a shallow embedding of the TypeScript source:

* `src/services/vapiService.ts` (the second document of `src/unnamed/part_001`):
  `mapApiStatusToLocal`, `formatTranscript`, `mergeAnalysis`, `mapApiAnalysis`,
  `extractTextFromAny`, `toTranscriptEntry`, `normalizeTranscriptEntries`,
  `extractTranscriptFromArtifact`, `vapiService.createCall`,
  `vapiService.refreshCallDetails`.
* `src/lib/repositories/vapi.ts` (the second document of `src/src/lib/types.ts`):
  `vapiRepository.listDueSchedules`, `vapiRepository.updateSchedule`,
  `vapiRepository.updateCall`.
* `src/components/VAPIPage.tsx`: `formatPhoneToE164`.

JavaScript dynamic values arriving from the provider are modelled by the
inductive type `JsonVal`; JavaScript numbers are modelled as integers (none of
the verified logic depends on fractional values); `Date` values are modelled by
their source strings or by natural-number instants, since the code only
constructs dates from provider strings and compares instants.
-/

/-- A JavaScript/JSON value as seen by the provider-payload normalizers. -/
inductive JsonVal where
  | null : JsonVal
  | bool (b : Bool) : JsonVal
  | num (n : Int) : JsonVal
  | str (s : String) : JsonVal
  | arr (xs : List JsonVal) : JsonVal
  | obj (fields : List (String × JsonVal)) : JsonVal
deriving Inhabited

/-- JavaScript truthiness of a value (`!v` in the source is `truthy v = false`). -/
def truthy : JsonVal → Bool
  | .null => false
  | .bool b => b
  | .num n => n != 0
  | .str s => s ≠ ""
  | .arr _ => true
  | .obj _ => true

/-- Property lookup `obj[k]` on an object value; `none` models `undefined`.
Lookup on arrays and primitives also yields `none`: the source only reads
data properties that such values do not carry. -/
def lookupField (k : String) : List (String × JsonVal) → Option JsonVal
  | [] => none
  | (k2, v) :: rest => if k2 = k then some v else lookupField k rest

/-- Field access on an arbitrary value, `undefined` outside objects. -/
def getField : JsonVal → String → Option JsonVal
  | .obj fs, k => lookupField k fs
  | _, _ => none

theorem lookupField_sizeOf {k : String} :
    ∀ {fs : List (String × JsonVal)} {c : JsonVal},
      lookupField k fs = some c → sizeOf c < 1 + sizeOf fs := by
  intro fs
  induction fs with
  | nil => intro c h; simp [lookupField] at h
  | cons p rest ih =>
    intro c h
    obtain ⟨k2, v⟩ := p
    by_cases hk : k2 = k
    · simp [lookupField, hk] at h
      subst h
      simp
      omega
    · simp [lookupField, hk] at h
      have := ih h
      simp
      omega

/-- Join of nonempty extracted strings with a space, then trim, mirroring
`.filter(Boolean).join(" ").trim()`. -/
def joinNonemptyTrim (parts : List String) : String :=
  (String.intercalate " " (parts.filter (fun s => s ≠ ""))).trim

/-- Embedding of `extractTextFromAny`: pulls display text out of an arbitrary
provider value, recursing through arrays and `text` / `message` / `content`
object fields. -/
def extractTextFromAny (v : JsonVal) : String :=
  match v with
  | .null => ""
  | .str s => s
  | .num n => toString n
  | .bool b => if b then "true" else "false"
  | .arr xs =>
      joinNonemptyTrim (xs.attach.map (fun x => extractTextFromAny x.1))
  | .obj fs =>
      match lookupField "text" fs with
      | some (.str s) => s
      | _ =>
        match lookupField "message" fs with
        | some (.str s) => s
        | _ =>
          match lookupField "content" fs with
          | some (.str s) => s
          | _ =>
            match hc : lookupField "content" fs with
            | some c =>
              if truthy c then extractTextFromAny c
              else
                match hm : lookupField "message" fs with
                | some m => if truthy m then extractTextFromAny m else ""
                | none => ""
            | none =>
              match hm : lookupField "message" fs with
              | some m => if truthy m then extractTextFromAny m else ""
              | none => ""
termination_by sizeOf v
decreasing_by
  · have := x.2
    have hlt : sizeOf x.1 < sizeOf xs := List.sizeOf_lt_of_mem this
    simp
    omega
  · have := lookupField_sizeOf hc
    simp
    omega
  · have := lookupField_sizeOf hm
    simp
    omega
  · have := lookupField_sizeOf hm
    simp
    omega

/-- Uppercase a string character by character (`String.prototype.toUpperCase`
restricted to the ASCII range the transcripts use). -/
def strUpper (s : String) : String := String.mk (s.toList.map Char.toUpper)

/-- Lowercase a string character by character (`String.prototype.toLowerCase`
restricted to the ASCII range the status values use). -/
def strLower (s : String) : String := String.mk (s.toList.map Char.toLower)

/-- Embedding of the `VAPICallTranscriptEntry` interface of `src/lib/types.ts`.
The `time` offset is a JavaScript number, modelled as an integer. -/
structure VAPICallTranscriptEntry where
  role : String
  message : String
  time : Option Int := none
deriving DecidableEq, Inhabited

/-- Embedding of `toTranscriptEntry`: one heterogeneous provider transcript
entry mapped to the uniform record, `none` when it must be dropped. -/
def toTranscriptEntry (entry : JsonVal) : Option VAPICallTranscriptEntry :=
  if truthy entry = false then none
  else
    match entry with
    | .str s => some { role := "speaker", message := s }
    | .num _ => none
    | .bool _ => none
    | .null => none
    | v =>
      let role :=
        match getField v "role" with
        | some (.str r) => r
        | _ =>
          match getField v "speaker" with
          | some (.str r) => r
          | _ => "speaker"
      let message :=
        match getField v "message" with
        | some (.str m) => m
        | _ =>
          match getField v "content" with
          | some (.str m) => m
          | _ =>
            match getField v "text" with
            | some (.str m) => m
            | _ =>
              let m1 := extractTextFromAny ((getField v "message").getD .null)
              let m2 := extractTextFromAny ((getField v "content").getD .null)
              let m3 := extractTextFromAny ((getField v "text").getD .null)
              if m1 ≠ "" then m1 else if m2 ≠ "" then m2 else m3
      if message = "" then none
      else
        let time :=
          match getField v "time" with
          | some (.num t) => some t
          | _ => none
        some { role := role, message := message, time := time }

/-- Entries extracted from one candidate value when it is an array, mirroring
the loop body of `normalizeTranscriptEntries`. -/
def entriesOfCandidate (c : Option JsonVal) : Option (List VAPICallTranscriptEntry) :=
  match c with
  | some (.arr xs) =>
    let es := xs.filterMap toTranscriptEntry
    if es.isEmpty then none else some es
  | _ => none

/-- Embedding of `normalizeTranscriptEntries`: tries the raw value and then its
`entries` / `messages` / `transcript` / `items` fields, returning the first
candidate array that yields at least one kept entry. -/
def normalizeTranscriptEntries (raw : Option JsonVal) : Option (List VAPICallTranscriptEntry) :=
  match raw with
  | none => none
  | some v =>
    if truthy v = false then none
    else
      entriesOfCandidate (some v) <|>
      entriesOfCandidate (getField v "entries") <|>
      entriesOfCandidate (getField v "messages") <|>
      entriesOfCandidate (getField v "transcript") <|>
      entriesOfCandidate (getField v "items")

/-- Rendering of a number with one decimal digit, `Number.prototype.toFixed(1)`
restricted to the integer values of the model. -/
def toFixed1 (n : Int) : String := toString n ++ ".0"

/-- Rendering of a single transcript entry inside `formatTranscript`. -/
def formatTranscriptLine (e : VAPICallTranscriptEntry) : String :=
  (match e.time with
   | some t => "[" ++ toFixed1 t ++ "s] "
   | none => "") ++
  (if e.role = "" then "SPEAKER" else strUpper e.role) ++ ": " ++ e.message

/-- Embedding of `formatTranscript`: derives the human readable transcript
string, `undefined` when there are no entries. -/
def formatTranscript (entries : Option (List VAPICallTranscriptEntry)) : Option String :=
  match entries with
  | none => none
  | some [] => none
  | some es => some (String.intercalate "\n" (es.map formatTranscriptLine))

/-- Embedding of the artifact object of `VapiCallDetailsResponse`. -/
structure ArtifactResponse where
  recording : Option String := none
  logUrl : Option String := none
  transcript : Option JsonVal := none
  transcriptUrl : Option String := none
  messages : Option JsonVal := none
  messagesOpenAIFormatted : Option JsonVal := none
deriving Inhabited

/-- Embedding of `extractTranscriptFromArtifact`. -/
def extractTranscriptFromArtifact (artifact : Option ArtifactResponse) :
    Option (List VAPICallTranscriptEntry) × Option String :=
  match artifact with
  | none => (none, none)
  | some a =>
    let entries :=
      normalizeTranscriptEntries a.transcript <|>
      normalizeTranscriptEntries a.messages <|>
      normalizeTranscriptEntries a.messagesOpenAIFormatted
    (entries, formatTranscript entries)

/-- Embedding of the `VAPICallStatus` union of `src/lib/types.ts`. -/
inductive VAPICallStatus where
  | pending
  | inProgress
  | completed
  | failed
deriving DecidableEq, Inhabited

/-- Embedding of `mapApiStatusToLocal`: the fixed provider-state lookup, on the
lowercased provider status, defaulting to `pending`. -/
def mapApiStatusToLocal (status : Option String) : VAPICallStatus :=
  match status with
  | none => .pending
  | some s =>
    let l := strLower s
    if l = "completed" ∨ l = "finished" then .completed
    else if l = "failed" ∨ l = "error" then .failed
    else if l = "in-progress" ∨ l = "running" ∨ l = "live" then .inProgress
    else .pending

/-- Embedding of the `VAPICallAnalysis` interface; `structuredData` and
`successEvaluation` are arbitrary JSON payloads. -/
structure VAPICallAnalysis where
  summary : Option String := none
  structuredData : Option JsonVal := none
  successEvaluation : Option JsonVal := none
deriving Inhabited

/-- Embedding of `mergeAnalysis`: field-wise incoming-over-existing merge that
returns `undefined` only when both sides are absent. -/
def mergeAnalysis (existing incoming : Option VAPICallAnalysis) : Option VAPICallAnalysis :=
  match existing, incoming with
  | none, none => none
  | _, _ =>
    some
      { summary := (incoming.bind (·.summary)).orElse (fun _ => existing.bind (·.summary))
        structuredData :=
          (incoming.bind (·.structuredData)).orElse (fun _ => existing.bind (·.structuredData))
        successEvaluation :=
          (incoming.bind (·.successEvaluation)).orElse
            (fun _ => existing.bind (·.successEvaluation)) }

/-- Embedding of the analysis object of `VapiCallDetailsResponse`. -/
structure VapiCallAnalysisResponse where
  summary : Option String := none
  structuredData : Option JsonVal := none
  successEvaluation : Option JsonVal := none
deriving Inhabited

/-- Embedding of `mapApiAnalysis`. -/
def mapApiAnalysis (analysis : Option VapiCallAnalysisResponse) : Option VAPICallAnalysis :=
  match analysis with
  | none => none
  | some a =>
    some
      { summary := a.summary
        structuredData := a.structuredData
        successEvaluation := a.successEvaluation }

/-- Embedding of the `VAPICallArtifacts` interface. -/
structure VAPICallArtifacts where
  recording : Option String := none
  logUrl : Option String := none
  transcriptUrl : Option String := none
deriving Inhabited, DecidableEq

/-- Embedding of the `VAPICall` interface of `src/lib/types.ts`. Date values
are modelled by their source strings. -/
structure VAPICall where
  id : String
  patientId : String
  promptId : String
  scheduleId : Option String := none
  phoneNumber : String
  providerCallId : Option String := none
  status : VAPICallStatus
  startedAt : Option String := none
  completedAt : Option String := none
  duration : Option Int := none
  transcript : Option String := none
  transcriptEntries : Option (List VAPICallTranscriptEntry) := none
  artifacts : Option VAPICallArtifacts := none
  analysis : Option VAPICallAnalysis := none
  createdAt : String := ""
deriving Inhabited

/-- Embedding of `VapiCallDetailsResponse`: the provider snapshot returned by
the call-details endpoint. -/
structure VapiCallDetailsResponse where
  id : String := ""
  status : String
  startedAt : Option String := none
  completedAt : Option String := none
  duration : Option Int := none
  artifact : Option ArtifactResponse := none
  analysis : Option VapiCallAnalysisResponse := none
deriving Inhabited

/-- JavaScript truthiness of an optional string, as used by the
`data.startedAt ? ... : ...` conditionals. -/
def strTruthy (s : Option String) : Bool :=
  match s with
  | some s => s ≠ ""
  | none => false

/-- Embedding of the update object built inside `vapiService.refreshCallDetails`
and applied through `vapiRepository.updateCall`: merges one provider snapshot
into the stored call record. -/
def refreshCallMerge (localCall : VAPICall) (data : VapiCallDetailsResponse) : VAPICall :=
  let transcriptInfo := extractTranscriptFromArtifact data.artifact
  let incomingAnalysis := mapApiAnalysis data.analysis
  { localCall with
    status := mapApiStatusToLocal (some data.status)
    startedAt := if strTruthy data.startedAt then data.startedAt else localCall.startedAt
    completedAt := if strTruthy data.completedAt then data.completedAt else localCall.completedAt
    duration :=
      match data.duration with
      | some n => some n
      | none => localCall.duration
    transcriptEntries := transcriptInfo.1.orElse (fun _ => localCall.transcriptEntries)
    transcript := transcriptInfo.2.orElse (fun _ => localCall.transcript)
    analysis := mergeAnalysis localCall.analysis incomingAnalysis
    artifacts :=
      some
        { recording :=
            (data.artifact.bind (·.recording)).orElse
              (fun _ => localCall.artifacts.bind (·.recording))
          logUrl :=
            (data.artifact.bind (·.logUrl)).orElse
              (fun _ => localCall.artifacts.bind (·.logUrl))
          transcriptUrl :=
            (data.artifact.bind (·.transcriptUrl)).orElse
              (fun _ => localCall.artifacts.bind (·.transcriptUrl)) } }

/-- Failure modes of `refreshCallDetails`, named as in the error-handling
taxonomy of the spec; the messages of the source are
`Call not found` and `This call does not yet have a Vapi call ID to sync.`. -/
inductive RefreshError where
  | notFound
  | missingProviderRef
  | providerSync (msg : String)
deriving DecidableEq

/-- Result of one `refreshCallDetails` run: the call store afterwards, whether
a provider request was made, and the returned value or error. -/
structure RefreshOutcome where
  store : List VAPICall
  providerRequested : Bool
  result : Except RefreshError VAPICall

/-- Embedding of `vapiService.refreshCallDetails` over an explicit call store;
`fetch` is the provider call-details endpoint keyed by provider call id. -/
def refreshCallDetails (store : List VAPICall) (callId : String)
    (fetch : String → Except String VapiCallDetailsResponse) : RefreshOutcome :=
  match store.find? (fun c => c.id == callId) with
  | none => ⟨store, false, .error .notFound⟩
  | some localCall =>
    match localCall.providerCallId with
    | none => ⟨store, false, .error .missingProviderRef⟩
    | some pid =>
      match fetch pid with
      | .error msg => ⟨store, true, .error (.providerSync msg)⟩
      | .ok data =>
        let updated := refreshCallMerge localCall data
        ⟨store.map (fun c => if c.id == callId then updated else c), true, .ok updated⟩

/-- Embedding of `VAPICallResponse`: the provider acceptance payload of the
call-initiation endpoint. -/
structure VAPICallResponse where
  id : String
  status : String
deriving DecidableEq, Inhabited

/-- Embedding of `CreateCallParams`. -/
structure CreateCallParams where
  patientId : String
  promptId : String
  phoneNumber : String
deriving DecidableEq, Inhabited

/-- Result of one `vapiService.createCall` run: the call records created in the
store, in order, and the returned value or propagated error. -/
structure CreateCallOutcome where
  created : List VAPICall
  result : Except String VAPICall

/-- The failed call record created by the catch branch of
`vapiService.createCall`: status `failed`, no provider call id. -/
def failedCallRecord (params : CreateCallParams) (newId : String) : VAPICall :=
  { id := newId
    patientId := params.patientId
    promptId := params.promptId
    phoneNumber := params.phoneNumber
    status := .failed }

/-- Embedding of `vapiService.createCall`. The inputs abstract the external
collaborators: whether the patient and prompt lookups succeed, whether the
assistant configuration fetch succeeds, and the provider initiation outcome
(`Except.error` covers both a non-2xx response and a transport throw, whose
message is what the source rethrows). `newId` is the id the store assigns and
`now` the instant `new Date()` observes. -/
def createCall (params : CreateCallParams) (patientFound promptFound : Bool)
    (assistantOk : Bool) (providerResult : Except String VAPICallResponse)
    (newId : String) (now : String) : CreateCallOutcome :=
  if patientFound = false ∨ promptFound = false then
    ⟨[], .error "Patient or prompt not found"⟩
  else if assistantOk = false then
    ⟨[failedCallRecord params newId], .error "Failed to fetch assistant configuration"⟩
  else
    match providerResult with
    | .error msg => ⟨[failedCallRecord params newId], .error msg⟩
    | .ok data =>
      let st := mapApiStatusToLocal (some data.status)
      let call : VAPICall :=
        { id := newId
          patientId := params.patientId
          promptId := params.promptId
          phoneNumber := params.phoneNumber
          providerCallId := some data.id
          status := st
          startedAt := if st = .inProgress then some now else none
          createdAt := now }
      ⟨[call], .ok call⟩

/-- Embedding of the schedule `type` column values. -/
inductive ScheduleType where
  | oneTime
  | recurring
  | now
deriving DecidableEq, Inhabited

/-- Embedding of the `recurrence_type` column values. -/
inductive RecurrenceType where
  | none
  | daily
  | weekly
  | monthly
deriving DecidableEq, Inhabited

/-- Embedding of a `vapi_call_schedules` row as read and written by
`vapiRepository`. Timestamps are natural-number instants; the ISO-string
comparison of the query agrees with this order. The `last_executed_at` field is
written by `vapiRepository.updateSchedule`, although the checked-in migration
does not declare such a column; it is included so that properties about it can
be stated. -/
structure ScheduleRow where
  id : String
  patient_id : String
  prompt_id : String
  type : ScheduleType
  scheduled_time : Option Nat := Option.none
  recurrence_type : Option RecurrenceType := Option.none
  recurrence_end_date : Option Nat := Option.none
  day_of_week : Option Nat := Option.none
  day_of_month : Option Nat := Option.none
  created_at : Nat := 0
  is_active : Bool
  last_executed_at : Option Nat := Option.none
deriving DecidableEq, Inhabited

/-- The row filter of `vapiRepository.listDueSchedules`: active, of type
one-time, with a scheduled time at or before `now`. The SQL `lte` comparison
excludes rows whose `scheduled_time` is null. -/
def dueFilter (now : Nat) (r : ScheduleRow) : Bool :=
  r.is_active && r.type = ScheduleType.oneTime &&
    (match r.scheduled_time with
     | some t => t ≤ now
     | Option.none => false)

/-- Embedding of `vapiRepository.listDueSchedules` over an explicit table. -/
def listDueSchedules (db : List ScheduleRow) (now : Nat) : List ScheduleRow :=
  db.filter (dueFilter now)

/-- Modelled from the spec: `vapiService.executeDueSchedules` is invoked by the
poller in `VAPIPage.tsx` but its implementation is not present under the
source tree; this models the per-schedule steps 3 to 6 of the Schedule
Executor algorithm in section 4.2 of the spec. Given the outcome of the
provider call initiation for one due schedule, it returns the schedule row
afterwards and whether the initiation succeeded: on success it sets
`last_executed_at` to `now`, deactivates one-time schedules, and deactivates
recurring schedules whose `recurrence_end_date` lies before `now`; on failure
the schedule row is left unchanged. -/
def execDueSchedule (now : Nat) (initiation : Except String VAPICallResponse)
    (s : ScheduleRow) : ScheduleRow × Bool :=
  match initiation with
  | .error _ => (s, false)
  | .ok _ =>
    let s1 := { s with last_executed_at := some now }
    let s2 :=
      if s.type = ScheduleType.oneTime then { s1 with is_active := false }
      else if (s.type == ScheduleType.recurring) &&
          (match s.recurrence_end_date with
           | some e => decide (e < now)
           | Option.none => false) then { s1 with is_active := false }
      else s1
    (s2, true)

/-- Test whether a string starts with the given other string,
`String.prototype.startsWith` over the character lists. -/
def strStartsWith (s p : String) : Bool := p.toList.isPrefixOf s.toList

/-- The digit characters of a phone string, `phone.replace` with the non-digit
class and the empty string. -/
def digitsOf (phone : String) : String :=
  String.mk (phone.toList.filter Char.isDigit)

/-- Embedding of `formatPhoneToE164` from `VAPIPage.tsx`. -/
def formatPhoneToE164 (phone : String) : String :=
  let digits := digitsOf phone
  if digits.length = 10 then "+1" ++ digits
  else if digits.length = 11 ∧ strStartsWith phone "+1" then phone
  else if digits.length = 11 ∧ strStartsWith digits "1" then "+" ++ digits
  else "+1" ++ digits

/-- Modelled from the spec: the spec requires phone numbers normalized to the
E.164 format; this predicate follows the words of that format, a plus sign
followed by one to fifteen digits and nothing else. -/
def isE164Spec (s : String) : Bool :=
  match s.toList with
  | [] => false
  | c :: rest =>
    c = '+' && decide (1 ≤ rest.length) && decide (rest.length ≤ 15) &&
      rest.all Char.isDigit

/-- An active one-time schedule whose scheduled time has passed and whose
last-executed timestamp is set: the due query still selects it. -/
def c1Row : ScheduleRow :=
  { id := "s1", patient_id := "p1", prompt_id := "q1", type := .oneTime,
    scheduled_time := some 10, is_active := true, last_executed_at := some 5 }

/-- C1 counterexample: at instant 20 the due evaluation reports `c1Row` as due
although its `last_executed_at` is set, so the claimed biconditional fails at
this concrete schedule. -/
theorem c1_counterexample :
    ¬ (dueFilter 20 c1Row = true ↔
        (c1Row.is_active = true ∧ (∃ t, c1Row.scheduled_time = some t ∧ t ≤ 20) ∧
          c1Row.last_executed_at = Option.none)) := by
  intro h
  have hdue : dueFilter 20 c1Row = true := by decide
  have := (h.mp hdue).2.2
  simp [c1Row] at this

/-- C1 (amended): the due evaluation of `vapiRepository.listDueSchedules`
reports a one-time schedule as due exactly when it is active and its scheduled
time exists and is at or before now; the last-executed timestamp is not
consulted (the checked-in migration does not even declare that column, and
one-time repetition is instead prevented by deactivation after execution). -/
theorem c1_due_oneTime (r : ScheduleRow) (now : Nat) (h : r.type = .oneTime) :
    dueFilter now r = true ↔
      (r.is_active = true ∧ ∃ t, r.scheduled_time = some t ∧ t ≤ now) := by
  cases hs : r.scheduled_time <;>
    simp [dueFilter, h, hs, Bool.and_eq_true, decide_eq_true_eq]

/-- C1 witness: the amended biconditional applied at a concrete active one-time
schedule and instant. -/
theorem c1_due_oneTime_witness :
    dueFilter 20 c1Row = true ↔
      (c1Row.is_active = true ∧ ∃ t, c1Row.scheduled_time = some t ∧ t ≤ 20) :=
  c1_due_oneTime c1Row 20 rfl

/-- An active recurring-daily schedule with no time-of-day, no end date and no
last execution: the claim reports it due at any instant. -/
def c2Row : ScheduleRow :=
  { id := "s2", patient_id := "p2", prompt_id := "q2", type := .recurring,
    recurrence_type := some .daily, is_active := true }

/-- C2 counterexample: `c2Row` satisfies every condition of the claim at
instant 100 (active, daily recurrence, no last execution, no time-of-day
constraint, no end date), yet the due evaluation does not report it due:
the query selects only one-time schedules. -/
theorem c2_counterexample :
    c2Row.is_active = true ∧ c2Row.type = ScheduleType.recurring ∧
    c2Row.recurrence_type = some RecurrenceType.daily ∧
    c2Row.last_executed_at = Option.none ∧ c2Row.scheduled_time = Option.none ∧
    c2Row.recurrence_end_date = Option.none ∧
    dueFilter 100 c2Row = false ∧ listDueSchedules [c2Row] 100 = [] := by
  refine ⟨rfl, rfl, rfl, rfl, rfl, rfl, by decide, by decide⟩

/-- C2 (amended): the due evaluation of `vapiRepository.listDueSchedules`
never reports a recurring schedule as due, whatever its recurrence settings,
last execution or the current instant: the query restricts to type one-time. -/
theorem c2_recurring_never_due (r : ScheduleRow) (now : Nat)
    (h : r.type = ScheduleType.recurring) :
    dueFilter now r = false := by
  simp [dueFilter, h]

/-- C2 witness: the amended statement applied at a concrete recurring-daily
schedule and instant. -/
theorem c2_recurring_never_due_witness : dueFilter 100 c2Row = false :=
  c2_recurring_never_due c2Row 100 rfl

/-- C3: for a due one-time schedule whose provider initiation succeeds, the
modelled executor step sets the last-executed timestamp to the execution
instant and clears the active flag; when the initiation fails the schedule row
is left entirely unchanged, so the record is mutated only after a successful
initiation. The executor is modelled from the spec because
`vapiService.executeDueSchedules` is not present under the source tree. -/
theorem c3_oneTime_execution (now : Nat) (resp : VAPICallResponse)
    (s : ScheduleRow) (hdue : dueFilter now s = true) :
    (execDueSchedule now (.ok resp) s).1.last_executed_at = some now ∧
    (execDueSchedule now (.ok resp) s).1.is_active = false ∧
    ∀ e : String, execDueSchedule now (.error e) s = (s, false) := by
  have htype : s.type = ScheduleType.oneTime := by
    simp [dueFilter, Bool.and_eq_true, decide_eq_true_eq] at hdue
    exact hdue.1.2
  refine ⟨?_, ?_, fun e => rfl⟩ <;> simp [execDueSchedule, htype]

/-- C3 witness: the executor step applied to a concrete due one-time schedule
with a successful initiation response. -/
theorem c3_oneTime_execution_witness :
    (execDueSchedule 20 (.ok ⟨"prov-1", "queued"⟩) { c1Row with last_executed_at := Option.none }).1.last_executed_at = some 20 ∧
    (execDueSchedule 20 (.ok ⟨"prov-1", "queued"⟩) { c1Row with last_executed_at := Option.none }).1.is_active = false ∧
    ∀ e : String, execDueSchedule 20 (.error e) { c1Row with last_executed_at := Option.none } = ({ c1Row with last_executed_at := Option.none }, false) :=
  c3_oneTime_execution 20 ⟨"prov-1", "queued"⟩ _ (by decide)

/-- C10 counterexample: the phone string already starting with a plus-one
prefix and containing eleven digits is returned verbatim, including its
spaces, parentheses and dashes, so the customer number sent to the provider
is not in E.164 format for this input. -/
theorem c10_counterexample :
    formatPhoneToE164 "+1 (555) 123-4567" = "+1 (555) 123-4567" ∧
    isE164Spec (formatPhoneToE164 "+1 (555) 123-4567") = false :=
  ⟨by decide, by decide⟩

/-- C10 (amended): when the patient phone string contains exactly ten digit
characters, the customer number sent is plus-one followed by those ten digits
and is in E.164 format; for other inputs the function may return the string
unnormalized, so no general E.164 guarantee holds. -/
theorem c10_tenDigit (phone : String) (h : (digitsOf phone).length = 10) :
    formatPhoneToE164 phone = "+1" ++ digitsOf phone ∧
    isE164Spec (formatPhoneToE164 phone) = true := by
  have h1 : formatPhoneToE164 phone = "+1" ++ digitsOf phone := by
    simp [formatPhoneToE164, h]
  refine ⟨h1, ?_⟩
  rw [h1]
  have htl : ("+1" ++ digitsOf phone).toList =
      '+' :: '1' :: (phone.toList.filter Char.isDigit) := by
    simp [String.toList, String.data_append, digitsOf]
  have hlen : (List.filter Char.isDigit phone.data).length = 10 := h
  simp only [isE164Spec, htl]
  simp [List.all_eq_true, hlen]

/-- C10 witness: the amended statement applied at a concrete formatted
ten-digit United States phone string. -/
theorem c10_tenDigit_witness :
    (digitsOf "(555) 123-4567").length = 10 ∧
    formatPhoneToE164 "(555) 123-4567" = "+1" ++ digitsOf "(555) 123-4567" ∧
    isE164Spec (formatPhoneToE164 "(555) 123-4567") = true := by
  have h := c10_tenDigit "(555) 123-4567" (by decide)
  exact ⟨by decide, h.1, h.2⟩

/-- C6: when the provider initiation is rejected or the transport throws,
both modelled by an `Except.error` outcome since the source converts a
non-2xx response into a thrown error handled by the same catch branch,
`createCall` creates exactly one call record, with status failed and no
provider call id, and propagates the error message to the caller unchanged;
no second initiation attempt happens within the pass. -/
theorem c6_createCall_failure (params : CreateCallParams) (msg newId now : String) :
    (createCall params true true true (.error msg) newId now).created =
      [failedCallRecord params newId] ∧
    (failedCallRecord params newId).status = .failed ∧
    (failedCallRecord params newId).providerCallId = Option.none ∧
    (createCall params true true true (.error msg) newId now).result =
      Except.error msg :=
  ⟨rfl, rfl, rfl, rfl⟩

/-- C7: when the provider accepts the initiation, the created call has the
status given by the fixed case-insensitive lookup `mapApiStatusToLocal`
applied to the provider state, its provider call id is the id of the
response, and its start timestamp is set exactly when the mapped status is
in-progress; the lookup sends completed and finished to completed, failed and
error to failed, in-progress, running and live to in-progress, and every
other state to pending. -/
theorem c7_createCall_acceptance (params : CreateCallParams)
    (data : VAPICallResponse) (newId now : String) (call : VAPICall)
    (h : (createCall params true true true (.ok data) newId now).result =
      Except.ok call) :
    call.status = mapApiStatusToLocal (some data.status) ∧
    call.providerCallId = some data.id ∧
    (call.startedAt = some now ↔
      mapApiStatusToLocal (some data.status) = .inProgress) ∧
    (∀ s, (strLower s = "completed" ∨ strLower s = "finished") →
      mapApiStatusToLocal (some s) = .completed) ∧
    (∀ s, (strLower s = "failed" ∨ strLower s = "error") →
      mapApiStatusToLocal (some s) = .failed) ∧
    (∀ s, (strLower s = "in-progress" ∨ strLower s = "running" ∨
        strLower s = "live") → mapApiStatusToLocal (some s) = .inProgress) ∧
    (∀ s, strLower s ≠ "completed" → strLower s ≠ "finished" →
      strLower s ≠ "failed" → strLower s ≠ "error" →
      strLower s ≠ "in-progress" → strLower s ≠ "running" →
      strLower s ≠ "live" → mapApiStatusToLocal (some s) = .pending) := by
  have hc : call =
      { id := newId, patientId := params.patientId, promptId := params.promptId,
        phoneNumber := params.phoneNumber, providerCallId := some data.id,
        status := mapApiStatusToLocal (some data.status),
        startedAt :=
          if mapApiStatusToLocal (some data.status) = .inProgress then some now
          else Option.none,
        createdAt := now } := by
    simp only [createCall] at h
    simp at h
    exact h.symm
  subst hc
  refine ⟨rfl, rfl, ?_, ?_, ?_, ?_, ?_⟩
  · by_cases hst : mapApiStatusToLocal (some data.status) = .inProgress <;>
      simp [hst]
  · intro s hs; rcases hs with h1 | h1 <;> simp [mapApiStatusToLocal, h1]
  · intro s hs; rcases hs with h1 | h1 <;> simp [mapApiStatusToLocal, h1]
  · intro s hs; rcases hs with h1 | h1 | h1 <;> simp [mapApiStatusToLocal, h1]
  · intro s h1 h2 h3 h4 h5 h6 h7
    simp [mapApiStatusToLocal, h1, h2, h3, h4, h5, h6, h7]

/-- The concrete parameters used by the creation witnesses. -/
def c7Params : CreateCallParams :=
  { patientId := "p1", promptId := "q1", phoneNumber := "+15551234567" }

/-- C7 witness: a provider acceptance with state queued yields a call with
status pending, the provider id recorded and no start timestamp. -/
theorem c7_createCall_acceptance_witness :
    ∃ call,
      (createCall c7Params true true true (.ok ⟨"prov-123", "queued"⟩) "c9"
        "T0").result = Except.ok call ∧
      call.status = .pending ∧ call.providerCallId = some "prov-123" ∧
      call.startedAt = Option.none := by
  refine ⟨_, rfl, ?_⟩
  have h := c7_createCall_acceptance c7Params ⟨"prov-123", "queued"⟩ "c9" "T0" _ rfl
  exact ⟨h.1.trans (by decide), h.2.1, by decide⟩

/-- C8: when no local call with the requested id exists, the refresh fails
with the not-found error; when the call exists but carries no provider call
id, it fails with the missing-provider-reference error; in both cases no
provider request is made and the call store is unchanged. -/
theorem c8_refresh_preconditions (store : List VAPICall) (callId : String)
    (fetch : String → Except String VapiCallDetailsResponse) :
    (store.find? (fun c => c.id == callId) = Option.none →
      refreshCallDetails store callId fetch =
        ⟨store, false, Except.error RefreshError.notFound⟩) ∧
    (∀ c, store.find? (fun c2 => c2.id == callId) = some c →
      c.providerCallId = Option.none →
      refreshCallDetails store callId fetch =
        ⟨store, false, Except.error RefreshError.missingProviderRef⟩) := by
  constructor
  · intro h; simp [refreshCallDetails, h]
  · intro c h hp; simp [refreshCallDetails, h, hp]

/-- A local call record with no provider call id. -/
def c8Call : VAPICall :=
  { id := "call-1", patientId := "p1", promptId := "q1",
    phoneNumber := "+15551234567", status := .pending }

/-- C8 witness: the two failure branches at concrete stores. -/
theorem c8_refresh_preconditions_witness :
    refreshCallDetails [] "nope" (fun _ => Except.error "offline") =
      ⟨[], false, Except.error RefreshError.notFound⟩ ∧
    refreshCallDetails [c8Call] "call-1" (fun _ => Except.error "offline") =
      ⟨[c8Call], false, Except.error RefreshError.missingProviderRef⟩ := by
  constructor
  · exact (c8_refresh_preconditions [] "nope" _).1 rfl
  · exact (c8_refresh_preconditions [c8Call] "call-1" _).2 c8Call rfl rfl

theorem orElse_self_assoc {α : Type} (a : Option α) (b : Unit → Option α) :
    a.orElse (fun _ => a.orElse b) = a.orElse b := by
  cases a <;> rfl

theorem orElse_self {α : Type} (a : Option α) : (a.orElse fun _ => a) = a := by
  cases a <;> rfl

theorem mergeAnalysis_merge_self (e i : Option VAPICallAnalysis) :
    mergeAnalysis (mergeAnalysis e i) i = mergeAnalysis e i := by
  cases e <;> cases i <;>
    simp [mergeAnalysis, orElse_self_assoc, orElse_self]

theorem refreshCallMerge_idem_aux (c : VAPICall) (d : VapiCallDetailsResponse) :
    refreshCallMerge (refreshCallMerge c d) d = refreshCallMerge c d := by
  cases hs : strTruthy d.startedAt <;> cases hc2 : strTruthy d.completedAt <;>
    cases hd : d.duration <;>
    simp [refreshCallMerge, hs, hc2, hd, orElse_self_assoc, mergeAnalysis_merge_self]

theorem find?_update_eq_some (store : List VAPICall) (callId : String)
    (u : VAPICall) (hu : (u.id == callId) = true) :
    ∀ c, store.find? (fun x => x.id == callId) = some c →
      (store.map (fun x => if x.id == callId then u else x)).find?
        (fun x => x.id == callId) = some u := by
  induction store with
  | nil => intro c h; simp at h
  | cons a rest ih =>
    intro c h
    cases ha : a.id == callId with
    | true => simp [List.find?, ha, hu]
    | false =>
      simp only [List.find?, ha] at h
      simp only [List.map_cons, ha, if_neg, Bool.false_eq_true, not_false_iff]
      simp only [List.find?, ha]
      exact ih c h

theorem map_update_idem (store : List VAPICall) (callId : String) (u : VAPICall)
    (hu : (u.id == callId) = true) :
    (store.map (fun x => if x.id == callId then u else x)).map
        (fun x => if x.id == callId then u else x) =
      store.map (fun x => if x.id == callId then u else x) := by
  induction store with
  | nil => rfl
  | cons a rest ih =>
    simp only [List.map_cons, ih]
    congr 1
    by_cases ha : (a.id == callId) = true <;> simp [ha, hu]

/-- C4: running `refreshCallDetails` twice in a row against one unchanged
provider snapshot yields the same returned call record and the same stored
call list as running it once; the merge applied by the refresh is idempotent
for a fixed snapshot. -/
theorem c4_refresh_idempotent (store : List VAPICall) (callId pid : String)
    (fetch : String → Except String VapiCallDetailsResponse)
    (c : VAPICall) (d : VapiCallDetailsResponse)
    (hfind : store.find? (fun x => x.id == callId) = some c)
    (hpid : c.providerCallId = some pid)
    (hfetch : fetch pid = Except.ok d) :
    (refreshCallDetails (refreshCallDetails store callId fetch).store callId
        fetch).result = (refreshCallDetails store callId fetch).result ∧
    (refreshCallDetails (refreshCallDetails store callId fetch).store callId
        fetch).store = (refreshCallDetails store callId fetch).store := by
  have hcid : (c.id == callId) = true := by
    have h0 := List.find?_some hfind
    simpa using h0
  have h1 : refreshCallDetails store callId fetch =
      ⟨store.map (fun x => if x.id == callId then refreshCallMerge c d else x),
        true, .ok (refreshCallMerge c d)⟩ := by
    simp [refreshCallDetails, hfind, hpid, hfetch]
  have huid : ((refreshCallMerge c d).id == callId) = true := hcid
  have hupid : (refreshCallMerge c d).providerCallId = some pid := hpid
  have hfind2 := find?_update_eq_some store callId (refreshCallMerge c d) huid c hfind
  have h2 : refreshCallDetails
      (store.map (fun x => if x.id == callId then refreshCallMerge c d else x))
      callId fetch =
      ⟨(store.map (fun x => if x.id == callId then refreshCallMerge c d else x)).map
          (fun x =>
            if x.id == callId then refreshCallMerge (refreshCallMerge c d) d
            else x),
        true, .ok (refreshCallMerge (refreshCallMerge c d) d)⟩ := by
    simp only [refreshCallDetails, hfind2, hupid, hfetch]
  have hstore1 : (refreshCallDetails store callId fetch).store =
      store.map (fun x => if x.id == callId then refreshCallMerge c d else x) := by
    rw [h1]
  have hres1 : (refreshCallDetails store callId fetch).result =
      .ok (refreshCallMerge c d) := by
    rw [h1]
  rw [hstore1, hres1, h2]
  constructor
  · simp [refreshCallMerge_idem_aux]
  · simp only [refreshCallMerge_idem_aux]
    exact map_update_idem store callId (refreshCallMerge c d) huid

/-- A stored call carrying a provider call id and some previously captured
data, used by the idempotence witness. -/
def c4Call : VAPICall :=
  { id := "call-9", patientId := "p1", promptId := "q1",
    phoneNumber := "+15551234567", providerCallId := some "prov-9",
    status := .inProgress, startedAt := some "T1",
    artifacts := some { recording := some "rec-old" } }

/-- A fixed provider snapshot for the idempotence witness. -/
def c4Data : VapiCallDetailsResponse :=
  { status := "completed", completedAt := some "T2", duration := some 42,
    artifact := some { logUrl := some "log-url" } }

/-- The fixed provider endpoint of the idempotence witness. -/
def c4Fetch : String → Except String VapiCallDetailsResponse :=
  fun _ => .ok c4Data

/-- C4 witness: the idempotence applied at a concrete one-call store and a
concrete unchanged snapshot. -/
theorem c4_refresh_idempotent_witness :
    (refreshCallDetails (refreshCallDetails [c4Call] "call-9" c4Fetch).store
        "call-9" c4Fetch).result =
      (refreshCallDetails [c4Call] "call-9" c4Fetch).result ∧
    (refreshCallDetails (refreshCallDetails [c4Call] "call-9" c4Fetch).store
        "call-9" c4Fetch).store =
      (refreshCallDetails [c4Call] "call-9" c4Fetch).store :=
  c4_refresh_idempotent [c4Call] "call-9" "prov-9" c4Fetch c4Call c4Data rfl rfl
    rfl

/-- The stored recording URL of a call. -/
def callRecording (c : VAPICall) : Option String :=
  c.artifacts.bind (·.recording)

/-- The stored log URL of a call. -/
def callLogUrl (c : VAPICall) : Option String :=
  c.artifacts.bind (·.logUrl)

/-- The stored transcript URL of a call. -/
def callTranscriptUrl (c : VAPICall) : Option String :=
  c.artifacts.bind (·.transcriptUrl)

/-- The stored analysis summary of a call. -/
def callSummary (c : VAPICall) : Option String :=
  c.analysis.bind (·.summary)

/-- The stored structured analysis data of a call. -/
def callStructuredData (c : VAPICall) : Option JsonVal :=
  c.analysis.bind (·.structuredData)

/-- The stored success evaluation of a call. -/
def callSuccessEvaluation (c : VAPICall) : Option JsonVal :=
  c.analysis.bind (·.successEvaluation)

/-- The recording URL carried by a provider snapshot. -/
def artRecording (d : VapiCallDetailsResponse) : Option String :=
  d.artifact.bind (·.recording)

/-- The log URL carried by a provider snapshot. -/
def artLogUrl (d : VapiCallDetailsResponse) : Option String :=
  d.artifact.bind (·.logUrl)

/-- The transcript URL carried by a provider snapshot. -/
def artTranscriptUrl (d : VapiCallDetailsResponse) : Option String :=
  d.artifact.bind (·.transcriptUrl)

/-- The analysis summary carried by a provider snapshot. -/
def anaSummary (d : VapiCallDetailsResponse) : Option String :=
  d.analysis.bind (·.summary)

/-- The structured analysis data carried by a provider snapshot. -/
def anaStructuredData (d : VapiCallDetailsResponse) : Option JsonVal :=
  d.analysis.bind (·.structuredData)

/-- The success evaluation carried by a provider snapshot. -/
def anaSuccessEvaluation (d : VapiCallDetailsResponse) : Option JsonVal :=
  d.analysis.bind (·.successEvaluation)

theorem extractTranscript_snd_none (x : Option ArtifactResponse)
    (h : (extractTranscriptFromArtifact x).1 = Option.none) :
    (extractTranscriptFromArtifact x).2 = Option.none := by
  cases x with
  | none => rfl
  | some a =>
    simp only [extractTranscriptFromArtifact] at h ⊢
    rw [h]
    rfl

/-- C5: field-wise merge behaviour of the refresh. Each optional field takes
the incoming snapshot value when the snapshot provides one and otherwise
keeps the stored local value; in particular a snapshot without a recording
URL never erases a stored recording URL. A date string is provided when it is
present and nonempty, matching the truthiness test of the source. -/
theorem c5_refresh_field_merge (c : VAPICall) (d : VapiCallDetailsResponse) :
    (∀ s, d.startedAt = some s → s ≠ "" →
      (refreshCallMerge c d).startedAt = some s) ∧
    (d.startedAt = Option.none →
      (refreshCallMerge c d).startedAt = c.startedAt) ∧
    (∀ s, d.completedAt = some s → s ≠ "" →
      (refreshCallMerge c d).completedAt = some s) ∧
    (d.completedAt = Option.none →
      (refreshCallMerge c d).completedAt = c.completedAt) ∧
    (∀ n, d.duration = some n → (refreshCallMerge c d).duration = some n) ∧
    (d.duration = Option.none →
      (refreshCallMerge c d).duration = c.duration) ∧
    (∀ es, (extractTranscriptFromArtifact d.artifact).1 = some es →
      (refreshCallMerge c d).transcriptEntries = some es) ∧
    ((extractTranscriptFromArtifact d.artifact).1 = Option.none →
      (refreshCallMerge c d).transcriptEntries = c.transcriptEntries ∧
      (refreshCallMerge c d).transcript = c.transcript) ∧
    (∀ u, artRecording d = some u →
      callRecording (refreshCallMerge c d) = some u) ∧
    (artRecording d = Option.none →
      callRecording (refreshCallMerge c d) = callRecording c) ∧
    (∀ u, artLogUrl d = some u → callLogUrl (refreshCallMerge c d) = some u) ∧
    (artLogUrl d = Option.none →
      callLogUrl (refreshCallMerge c d) = callLogUrl c) ∧
    (∀ u, artTranscriptUrl d = some u →
      callTranscriptUrl (refreshCallMerge c d) = some u) ∧
    (artTranscriptUrl d = Option.none →
      callTranscriptUrl (refreshCallMerge c d) = callTranscriptUrl c) ∧
    (∀ s, anaSummary d = some s → callSummary (refreshCallMerge c d) = some s) ∧
    (anaSummary d = Option.none →
      callSummary (refreshCallMerge c d) = callSummary c) ∧
    (∀ x, anaStructuredData d = some x →
      callStructuredData (refreshCallMerge c d) = some x) ∧
    (anaStructuredData d = Option.none →
      callStructuredData (refreshCallMerge c d) = callStructuredData c) ∧
    (∀ x, anaSuccessEvaluation d = some x →
      callSuccessEvaluation (refreshCallMerge c d) = some x) ∧
    (anaSuccessEvaluation d = Option.none →
      callSuccessEvaluation (refreshCallMerge c d) = callSuccessEvaluation c) := by
  refine ⟨?_, ?_, ?_, ?_, ?_, ?_, ?_, ?_, ?_, ?_, ?_, ?_, ?_, ?_, ?_, ?_, ?_,
    ?_, ?_, ?_⟩
  · intro s h hne; simp [refreshCallMerge, strTruthy, h, hne]
  · intro h; simp [refreshCallMerge, strTruthy, h]
  · intro s h hne; simp [refreshCallMerge, strTruthy, h, hne]
  · intro h; simp [refreshCallMerge, strTruthy, h]
  · intro n h; simp [refreshCallMerge, h]
  · intro h; simp [refreshCallMerge, h]
  · intro es h; simp [refreshCallMerge, h, Option.orElse]
  · intro h
    have h2 := extractTranscript_snd_none d.artifact h
    constructor <;> simp [refreshCallMerge, h, h2, Option.orElse]
  · intro u h
    cases ha : d.artifact with
    | none => simp [artRecording, ha] at h
    | some a =>
      simp only [artRecording, ha, Option.some_bind] at h
      simp [refreshCallMerge, callRecording, ha, h, Option.orElse]
  · intro h
    cases ha : d.artifact with
    | none => simp [refreshCallMerge, callRecording, ha, Option.orElse]
    | some a =>
      simp only [artRecording, ha, Option.some_bind] at h
      simp [refreshCallMerge, callRecording, ha, h, Option.orElse]
  · intro u h
    cases ha : d.artifact with
    | none => simp [artLogUrl, ha] at h
    | some a =>
      simp only [artLogUrl, ha, Option.some_bind] at h
      simp [refreshCallMerge, callLogUrl, ha, h, Option.orElse]
  · intro h
    cases ha : d.artifact with
    | none => simp [refreshCallMerge, callLogUrl, ha, Option.orElse]
    | some a =>
      simp only [artLogUrl, ha, Option.some_bind] at h
      simp [refreshCallMerge, callLogUrl, ha, h, Option.orElse]
  · intro u h
    cases ha : d.artifact with
    | none => simp [artTranscriptUrl, ha] at h
    | some a =>
      simp only [artTranscriptUrl, ha, Option.some_bind] at h
      simp [refreshCallMerge, callTranscriptUrl, ha, h, Option.orElse]
  · intro h
    cases ha : d.artifact with
    | none => simp [refreshCallMerge, callTranscriptUrl, ha, Option.orElse]
    | some a =>
      simp only [artTranscriptUrl, ha, Option.some_bind] at h
      simp [refreshCallMerge, callTranscriptUrl, ha, h, Option.orElse]
  · intro s h
    cases ha : d.analysis with
    | none => simp [anaSummary, ha] at h
    | some a =>
      simp only [anaSummary, ha, Option.some_bind] at h
      cases c.analysis <;>
        simp [refreshCallMerge, callSummary, mergeAnalysis, mapApiAnalysis, ha,
          h, Option.orElse]
  · intro h
    cases ha : d.analysis with
    | none =>
      cases hb : c.analysis <;>
        simp [refreshCallMerge, callSummary, mergeAnalysis, mapApiAnalysis, ha,
          hb, Option.orElse]
    | some a =>
      simp only [anaSummary, ha, Option.some_bind] at h
      cases hb : c.analysis <;>
        simp [refreshCallMerge, callSummary, mergeAnalysis, mapApiAnalysis, ha,
          hb, h, Option.orElse]
  · intro x h
    cases ha : d.analysis with
    | none => simp [anaStructuredData, ha] at h
    | some a =>
      simp only [anaStructuredData, ha, Option.some_bind] at h
      cases c.analysis <;>
        simp [refreshCallMerge, callStructuredData, mergeAnalysis,
          mapApiAnalysis, ha, h, Option.orElse]
  · intro h
    cases ha : d.analysis with
    | none =>
      cases hb : c.analysis <;>
        simp [refreshCallMerge, callStructuredData, mergeAnalysis,
          mapApiAnalysis, ha, hb, Option.orElse]
    | some a =>
      simp only [anaStructuredData, ha, Option.some_bind] at h
      cases hb : c.analysis <;>
        simp [refreshCallMerge, callStructuredData, mergeAnalysis,
          mapApiAnalysis, ha, hb, h, Option.orElse]
  · intro x h
    cases ha : d.analysis with
    | none => simp [anaSuccessEvaluation, ha] at h
    | some a =>
      simp only [anaSuccessEvaluation, ha, Option.some_bind] at h
      cases c.analysis <;>
        simp [refreshCallMerge, callSuccessEvaluation, mergeAnalysis,
          mapApiAnalysis, ha, h, Option.orElse]
  · intro h
    cases ha : d.analysis with
    | none =>
      cases hb : c.analysis <;>
        simp [refreshCallMerge, callSuccessEvaluation, mergeAnalysis,
          mapApiAnalysis, ha, hb, Option.orElse]
    | some a =>
      simp only [anaSuccessEvaluation, ha, Option.some_bind] at h
      cases hb : c.analysis <;>
        simp [refreshCallMerge, callSuccessEvaluation, mergeAnalysis,
          mapApiAnalysis, ha, hb, h, Option.orElse]

/-- A stored call with previously captured data for the field-merge witness. -/
def c5Local : VAPICall :=
  { id := "c1", patientId := "p", promptId := "q",
    phoneNumber := "+15551234567", status := .inProgress,
    startedAt := some "T1",
    artifacts := some { recording := some "rec-old" },
    analysis := some { summary := some "old-summary" } }

/-- A snapshot that provides a duration but omits the dates, the artifact and
the analysis entirely. -/
def c5Data : VapiCallDetailsResponse :=
  { status := "completed", duration := some 42 }

/-- C5 witness: at the concrete call and snapshot, the omitted recording and
summary are preserved, the omitted start timestamp keeps the local value, and
the provided duration is taken. -/
theorem c5_refresh_field_merge_witness :
    (refreshCallMerge c5Local c5Data).startedAt = c5Local.startedAt ∧
    (refreshCallMerge c5Local c5Data).duration = some 42 ∧
    callRecording (refreshCallMerge c5Local c5Data) = callRecording c5Local ∧
    callSummary (refreshCallMerge c5Local c5Data) = callSummary c5Local := by
  obtain ⟨-, h2, -, -, h5, -, -, -, -, h10, -, -, -, -, -, h16, -, -, -, -⟩ :=
    c5_refresh_field_merge c5Local c5Data
  exact ⟨h2 rfl, h5 42 rfl, h10 rfl, h16 rfl⟩

theorem opt_orElse_eq_some {α : Type} (a b : Option α) (x : α)
    (h : (a <|> b) = some x) : a = some x ∨ b = some x := by
  cases a <;> simp_all

theorem toTranscriptEntry_message_ne (v : JsonVal) (e : VAPICallTranscriptEntry)
    (h : toTranscriptEntry v = some e) : e.message ≠ "" := by
  cases v with
  | null => simp [toTranscriptEntry, truthy] at h
  | bool b => cases b <;> simp [toTranscriptEntry, truthy] at h
  | num n =>
    by_cases hn : n = 0
    · subst hn; simp [toTranscriptEntry, truthy] at h
    · simp [toTranscriptEntry, truthy, hn] at h
  | str s =>
    by_cases hs : s = ""
    · subst hs; simp [toTranscriptEntry, truthy] at h
    · simp [toTranscriptEntry, truthy, hs] at h
      simp [← h, hs]
  | arr xs =>
    simp only [toTranscriptEntry, truthy] at h
    simp only [Bool.true_eq_false, if_false, reduceIte] at h
    rw [ite_eq_iff] at h
    rcases h with ⟨hM, he⟩ | ⟨hM, he⟩
    · exact absurd he (by simp)
    · injection he with he2
      subst he2
      simpa using hM
  | obj fs =>
    simp only [toTranscriptEntry, truthy] at h
    simp only [Bool.true_eq_false, if_false, reduceIte] at h
    rw [ite_eq_iff] at h
    rcases h with ⟨hM, he⟩ | ⟨hM, he⟩
    · exact absurd he (by simp)
    · injection he with he2
      subst he2
      simpa using hM

theorem entriesOfCandidate_sound (c : Option JsonVal)
    (es : List VAPICallTranscriptEntry) (h : entriesOfCandidate c = some es) :
    es ≠ [] ∧ ∀ e ∈ es, e.message ≠ "" := by
  match c with
  | none => simp [entriesOfCandidate] at h
  | some .null => simp [entriesOfCandidate] at h
  | some (.bool b) => simp [entriesOfCandidate] at h
  | some (.num n) => simp [entriesOfCandidate] at h
  | some (.str s) => simp [entriesOfCandidate] at h
  | some (.obj fs) => simp [entriesOfCandidate] at h
  | some (.arr xs) =>
    simp only [entriesOfCandidate] at h
    split at h
    · simp at h
    · rename_i hne
      simp only [Option.some.injEq] at h
      subst h
      refine ⟨by simpa [List.isEmpty_iff] using hne, ?_⟩
      intro e he
      obtain ⟨v, hv, htv⟩ := List.mem_filterMap.mp he
      exact toTranscriptEntry_message_ne v e htv

theorem normalizeTranscriptEntries_sound (raw : Option JsonVal)
    (es : List VAPICallTranscriptEntry)
    (h : normalizeTranscriptEntries raw = some es) :
    es ≠ [] ∧ ∀ e ∈ es, e.message ≠ "" := by
  cases raw with
  | none => simp [normalizeTranscriptEntries] at h
  | some v =>
    by_cases ht : truthy v = false
    · simp [normalizeTranscriptEntries, ht] at h
    · simp only [normalizeTranscriptEntries, if_neg ht] at h
      rcases opt_orElse_eq_some _ _ _ h with h1 | h2
      · exact entriesOfCandidate_sound _ _ h1
      · rcases opt_orElse_eq_some _ _ _ h2 with h1 | h2
        · exact entriesOfCandidate_sound _ _ h1
        · rcases opt_orElse_eq_some _ _ _ h2 with h1 | h2
          · exact entriesOfCandidate_sound _ _ h1
          · rcases opt_orElse_eq_some _ _ _ h2 with h1 | h2
            · exact entriesOfCandidate_sound _ _ h1
            · exact entriesOfCandidate_sound _ _ h2

theorem extractTranscript_entries_sound (x : Option ArtifactResponse)
    (es : List VAPICallTranscriptEntry)
    (h : (extractTranscriptFromArtifact x).1 = some es) :
    es ≠ [] ∧ ∀ e ∈ es, e.message ≠ "" := by
  cases x with
  | none => simp [extractTranscriptFromArtifact] at h
  | some a =>
    simp only [extractTranscriptFromArtifact] at h
    rcases opt_orElse_eq_some _ _ _ h with h1 | h2
    · exact normalizeTranscriptEntries_sound _ _ h1
    · rcases opt_orElse_eq_some _ _ _ h2 with h1 | h2
      · exact normalizeTranscriptEntries_sound _ _ h1
      · exact normalizeTranscriptEntries_sound _ _ h2

/-- C9: the transcript pipeline. Recognized provider shapes, a plain string,
an object with role, message and numeric time, an object keyed by speaker and
content, and an object with a nested content object, map to the uniform
record; every kept entry has a nonempty extracted message and a successful
normalization is nonempty, so entries without extractable text are dropped;
the derived transcript joins one formatted line per entry with newlines,
each line carrying the optional time offset, the uppercased role, SPEAKER
when the role is empty, and the message; and the refresh replaces the stored
transcript string only when new entries were extracted. -/
theorem c9_transcript_pipeline :
    (∀ s : String, s ≠ "" →
      toTranscriptEntry (.str s) =
        some { role := "speaker", message := s, time := Option.none }) ∧
    (∀ r m : String, ∀ t : Int, m ≠ "" →
      toTranscriptEntry
          (.obj [("role", .str r), ("message", .str m), ("time", .num t)]) =
        some { role := r, message := m, time := some t }) ∧
    (∀ r m : String, m ≠ "" →
      toTranscriptEntry (.obj [("speaker", .str r), ("content", .str m)]) =
        some { role := r, message := m, time := Option.none }) ∧
    (∀ r m : String, m ≠ "" →
      toTranscriptEntry
          (.obj [("role", .str r), ("content", .obj [("text", .str m)])]) =
        some { role := r, message := m, time := Option.none }) ∧
    (∀ v e, toTranscriptEntry v = some e → e.message ≠ "") ∧
    (∀ raw es, normalizeTranscriptEntries raw = some es →
      es ≠ [] ∧ ∀ e ∈ es, e.message ≠ "") ∧
    (∀ es : List VAPICallTranscriptEntry, es ≠ [] →
      formatTranscript (some es) =
        some (String.intercalate "\n" (es.map formatTranscriptLine))) ∧
    (formatTranscriptLine { role := "user", message := "hi", time := some 3 } =
      "[3.0s] USER: hi") ∧
    (formatTranscriptLine { role := "", message := "hi", time := Option.none } =
      "SPEAKER: hi") ∧
    (∀ c d, (extractTranscriptFromArtifact d.artifact).1 = Option.none →
      (refreshCallMerge c d).transcript = c.transcript) ∧
    (∀ c d es, (extractTranscriptFromArtifact d.artifact).1 = some es →
      (refreshCallMerge c d).transcriptEntries = some es ∧
      (refreshCallMerge c d).transcript =
        some (String.intercalate "\n" (es.map formatTranscriptLine))) := by
  refine ⟨?_, ?_, ?_, ?_, toTranscriptEntry_message_ne,
    normalizeTranscriptEntries_sound, ?_, by decide, by decide, ?_, ?_⟩
  · intro s hs; simp [toTranscriptEntry, truthy, hs]
  · intro r m t hm
    simp [toTranscriptEntry, truthy, getField, lookupField, hm]
  · intro r m hm
    simp [toTranscriptEntry, truthy, getField, lookupField, hm]
  · intro r m hm
    simp [toTranscriptEntry, truthy, getField, lookupField, extractTextFromAny,
      hm]
  · intro es hes
    cases es with
    | nil => exact absurd rfl hes
    | cons a l => rfl
  · intro c d h
    have h2 := extractTranscript_snd_none d.artifact h
    simp [refreshCallMerge, h2, Option.orElse]
  · intro c d es h
    have hsound := extractTranscript_entries_sound d.artifact es h
    have h2 : (extractTranscriptFromArtifact d.artifact).2 =
        formatTranscript (some es) := by
      cases ha : d.artifact with
      | none => rw [ha] at h; simp [extractTranscriptFromArtifact] at h
      | some a =>
        rw [ha] at h
        simp only [extractTranscriptFromArtifact] at h ⊢
        rw [h]
    have h3 : formatTranscript (some es) =
        some (String.intercalate "\n" (es.map formatTranscriptLine)) := by
      cases es with
      | nil => exact absurd rfl hsound.1
      | cons a l => rfl
    constructor
    · simp [refreshCallMerge, h, Option.orElse]
    · simp [refreshCallMerge, h2, h3, Option.orElse]

/-- C9 witness: the pipeline statements applied at concrete provider shapes. -/
theorem c9_transcript_pipeline_witness :
    toTranscriptEntry (.str "hello") =
      some { role := "speaker", message := "hello", time := Option.none } ∧
    toTranscriptEntry
        (.obj [("role", .str "user"), ("message", .str "hi"),
          ("time", .num 3)]) =
      some { role := "user", message := "hi", time := some 3 } ∧
    formatTranscript
        (some [{ role := "user", message := "hi", time := some 3 }]) =
      some "[3.0s] USER: hi" := by
  obtain ⟨h1, h2, -, -, -, -, h7, h8, -, -, -⟩ := c9_transcript_pipeline
  refine ⟨h1 "hello" (by decide), h2 "user" "hi" 3 (by decide), ?_⟩
  rw [h7 [{ role := "user", message := "hi", time := some 3 }] (by simp)]
  decide
